import Mathlib

/-!
Verification of the provider-resolution and configuration layer of the
`omnisette` crate (`src/omnisette/src/lib.rs`).

The file shallowly embeds the code of `lib.rs`: the configuration value,
the resolution-error enum, the provider-handle type with its origin tag,
and the two resolver functions `get_anisette_headers_provider` and
`get_ssc_anisette_headers_provider`.

The backend modules (`aos_kit`, `store_services_core`, `adi_proxy`,
`remote_anisette`) are external collaborators whose internals are out of
scope; their fallible constructors are passed in as an oracle record
`Backends`, and the two conditional-compilation flags
(`target_os = "macos"`, feature `remote-anisette`) are passed in as a
`BuildConfig` record, so each theorem quantifies over every build and
every backend behaviour.
-/

set_option autoImplicit false

namespace Omnisette

/-- Model of `std::path::PathBuf` at the interface `lib.rs` uses:
a path is either valid Unicode (so `to_str` yields its string form) or
holds non-Unicode bytes (so `to_str` yields `None`). -/
inductive PathBuf where
  | unicode (s : String)
  | nonUnicode (bytes : List Nat)
deriving DecidableEq, Repr

/-- `PathBuf::new()`: the empty (Unicode) path. -/
def PathBuf.new : PathBuf := PathBuf.unicode ""

/-- `Path::to_str`: `Some` exactly when the path is valid Unicode. -/
def PathBuf.to_str : PathBuf → Option String
  | PathBuf.unicode s => some s
  | PathBuf.nonUnicode _ => none

/-- `Path::to_path_buf` on an owned path: the identity in value semantics. -/
def PathBuf.to_path_buf (p : PathBuf) : PathBuf := p

/-- `enum AnisetteMetaError` from `lib.rs`. -/
inductive AnisetteMetaError where
  | UnsupportedDevice
  | InvalidArgument (field : String)
deriving DecidableEq, Repr

/-- An `anyhow::Error` as it can appear in this crate: either one of the
resolver's own `AnisetteMetaError` values, or an opaque error value
produced inside a backend module. -/
inductive AnyError where
  | meta (e : AnisetteMetaError)
  | backend (msg : String)
deriving DecidableEq, Repr

/-- `pub const DEFAULT_ANISETTE_URL`. -/
def DEFAULT_ANISETTE_URL : String := "https://ani.wesbryie.com/"

/-- `struct AnisetteConfiguration`. -/
structure AnisetteConfiguration where
  anisette_url : String
  configuration_path : PathBuf
deriving DecidableEq, Repr

/-- `AnisetteConfiguration::new`. -/
def AnisetteConfiguration.new : AnisetteConfiguration :=
  { anisette_url := DEFAULT_ANISETTE_URL, configuration_path := PathBuf.new }

/-- `impl Default for AnisetteConfiguration`. -/
def AnisetteConfiguration.default : AnisetteConfiguration :=
  AnisetteConfiguration.new

/-- `#[derive(Clone)]` on `AnisetteConfiguration`: a clone is the same value. -/
def AnisetteConfiguration.clone (c : AnisetteConfiguration) : AnisetteConfiguration := c

/-- `AnisetteConfiguration::set_anisette_url` (builder-style: consumes and
returns the configuration). -/
def AnisetteConfiguration.set_anisette_url (c : AnisetteConfiguration)
    (anisette_url : String) : AnisetteConfiguration :=
  { c with anisette_url := anisette_url }

/-- `AnisetteConfiguration::set_configuration_path`. -/
def AnisetteConfiguration.set_configuration_path (c : AnisetteConfiguration)
    (configuration_path : PathBuf) : AnisetteConfiguration :=
  { c with configuration_path := configuration_path }

/-- `enum AnisetteHeadersProviderType`. -/
inductive AnisetteHeadersProviderType where
  | Local
  | Remote
deriving DecidableEq, Repr

/-- The concrete `Box<dyn AnisetteHeadersProvider>` values `lib.rs` can
build, over an abstract type `π` of configured SSC ADI proxies:
the macOS `AOSKitAnisetteProvider`, the `ADIProxyAnisetteProvider`
wrapping a configured proxy and the configuration path, and the
`RemoteAnisetteProvider` built from the configured URL. -/
inductive Provider (π : Type) where
  | aosKit
  | adiProxyAnisette (proxy : π) (configuration_path : PathBuf)
  | remote (anisette_url : String)
deriving DecidableEq, Repr

/-- `struct AnisetteHeadersProviderRes`. -/
structure AnisetteHeadersProviderRes (π : Type) where
  provider : Provider π
  provider_type : AnisetteHeadersProviderType
deriving DecidableEq, Repr

/-- `AnisetteHeadersProviderRes::local` (named `mkLocal` because `local`
is a Lean keyword). -/
def AnisetteHeadersProviderRes.mkLocal {π : Type} (provider : Provider π) :
    AnisetteHeadersProviderRes π :=
  { provider := provider, provider_type := AnisetteHeadersProviderType.Local }

/-- `AnisetteHeadersProviderRes::remote` (named `mkRemote` for symmetry
with `mkLocal`). -/
def AnisetteHeadersProviderRes.mkRemote {π : Type} (provider : Provider π) :
    AnisetteHeadersProviderRes π :=
  { provider := provider, provider_type := AnisetteHeadersProviderType.Remote }

/-- The two conditional-compilation parameters `lib.rs` branches on. -/
structure BuildConfig where
  target_os_macos : Bool
  feature_remote_anisette : Bool
deriving DecidableEq, Repr

/-- Oracle record for the fallible constructors of the backend modules,
which live outside `lib.rs` (out of scope per the spec). `π` is the type
of `StoreServicesCoreADIProxy` values. Each constructor either yields a
value or fails with an opaque backend error message. -/
structure Backends (π : Type) where
  aosKitNew : Except String Unit
  sscNew : PathBuf → Except String π
  set_provisioning_path : π → String → Except String π
  adiProxyAnisetteProviderNew : π → PathBuf → Except String Unit

/-- `AnisetteHeaders::get_ssc_anisette_headers_provider`, line for line:
(a) `StoreServicesCoreADIProxy::new(configuration.configuration_path())?`;
(b) `ssc_adi_proxy.set_provisioning_path(config_path.to_str().ok_or(
     AnisetteMetaError::InvalidArgument("configuration.configuration_path"))?)?`;
(c) `Ok(AnisetteHeadersProviderRes::local(Box::new(
     ADIProxyAnisetteProvider::new(ssc_adi_proxy, config_path.to_path_buf())?)))`. -/
def get_ssc_anisette_headers_provider {π : Type} (bk : Backends π)
    (configuration : AnisetteConfiguration) :
    Except AnyError (AnisetteHeadersProviderRes π) := do
  let ssc_adi_proxy ←
    (bk.sscNew configuration.configuration_path).mapError AnyError.backend
  let config_path := configuration.configuration_path
  let path_str ←
    match config_path.to_str with
    | some s => Except.ok s
    | none =>
        Except.error
          (AnyError.meta
            (AnisetteMetaError.InvalidArgument "configuration.configuration_path"))
  let ssc_adi_proxy ←
    (bk.set_provisioning_path ssc_adi_proxy path_str).mapError AnyError.backend
  let _ ←
    (bk.adiProxyAnisetteProviderNew ssc_adi_proxy config_path.to_path_buf).mapError
      AnyError.backend
  Except.ok
    (AnisetteHeadersProviderRes.mkLocal
      (Provider.adiProxyAnisette ssc_adi_proxy config_path.to_path_buf))

/-- The tail of `get_anisette_headers_provider` after the macOS block:
`if let Ok(p) = get_ssc_anisette_headers_provider(configuration.clone())
 { return Ok(p) }` (the `Err` value is discarded), then under
`#[cfg(feature = "remote-anisette")]` an unconditional
`Ok(AnisetteHeadersProviderRes::remote(RemoteAnisetteProvider::new(
configuration.anisette_url)))`, otherwise
`bail!(AnisetteMetaError::UnsupportedDevice)`. -/
def resolve_after_native {π : Type} (build : BuildConfig) (bk : Backends π)
    (configuration : AnisetteConfiguration) :
    Except AnyError (AnisetteHeadersProviderRes π) :=
  match get_ssc_anisette_headers_provider bk configuration.clone with
  | Except.ok ssc_anisette_headers_provider => Except.ok ssc_anisette_headers_provider
  | Except.error _ =>
      if build.feature_remote_anisette then
        Except.ok
          (AnisetteHeadersProviderRes.mkRemote
            (Provider.remote configuration.anisette_url))
      else
        Except.error (AnyError.meta AnisetteMetaError.UnsupportedDevice)

/-- `AnisetteHeaders::get_anisette_headers_provider`: under
`#[cfg(target_os = "macos")]`,
`if let Ok(prov) = aos_kit::AOSKitAnisetteProvider::new()
 { return Ok(AnisetteHeadersProviderRes::local(Box::new(prov))) }`,
then the fall-through modelled by `resolve_after_native`. -/
def get_anisette_headers_provider {π : Type} (build : BuildConfig)
    (bk : Backends π) (configuration : AnisetteConfiguration) :
    Except AnyError (AnisetteHeadersProviderRes π) :=
  if build.target_os_macos then
    match bk.aosKitNew with
    | Except.ok _ =>
        Except.ok (AnisetteHeadersProviderRes.mkLocal Provider.aosKit)
    | Except.error _ => resolve_after_native build bk configuration
  else resolve_after_native build bk configuration

/-- The three backends of the resolver's priority list. -/
inductive BackendKind where
  | native
  | localAdi
  | remoteNet
deriving DecidableEq, Repr

/-- `get_anisette_headers_provider` instrumented with the list of backends
attempted, in the order the code attempts them. -/
def get_anisette_headers_provider_traced {π : Type} (build : BuildConfig)
    (bk : Backends π) (configuration : AnisetteConfiguration) :
    Except AnyError (AnisetteHeadersProviderRes π) × List BackendKind :=
  if build.target_os_macos then
    match bk.aosKitNew with
    | Except.ok _ =>
        (Except.ok (AnisetteHeadersProviderRes.mkLocal Provider.aosKit),
          [BackendKind.native])
    | Except.error _ =>
        match get_ssc_anisette_headers_provider bk configuration.clone with
        | Except.ok r => (Except.ok r, [BackendKind.native, BackendKind.localAdi])
        | Except.error _ =>
            if build.feature_remote_anisette then
              (Except.ok
                (AnisetteHeadersProviderRes.mkRemote
                  (Provider.remote configuration.anisette_url)),
                [BackendKind.native, BackendKind.localAdi, BackendKind.remoteNet])
            else
              (Except.error (AnyError.meta AnisetteMetaError.UnsupportedDevice),
                [BackendKind.native, BackendKind.localAdi])
  else
    match get_ssc_anisette_headers_provider bk configuration.clone with
    | Except.ok r => (Except.ok r, [BackendKind.localAdi])
    | Except.error _ =>
        if build.feature_remote_anisette then
          (Except.ok
            (AnisetteHeadersProviderRes.mkRemote
              (Provider.remote configuration.anisette_url)),
            [BackendKind.localAdi, BackendKind.remoteNet])
        else
          (Except.error (AnyError.meta AnisetteMetaError.UnsupportedDevice),
            [BackendKind.localAdi])

/-- The local provisioned-identity backend construction in the order the
spec words it: (a) instantiate the proxy with the configuration's path;
(b) configure its provisioning-state path from the same configuration,
mapping any path-encoding failure to
`InvalidArgument("configuration.configuration_path")`; (c) wrap the
configured proxy in the provider adapter; on success the result is
tagged `Local`. Stated separately from
`get_ssc_anisette_headers_provider` so the code's construction can be
proved to refine the spec's description. -/
def ssc_construction_spec {π : Type} (bk : Backends π)
    (c : AnisetteConfiguration) : Except AnyError (AnisetteHeadersProviderRes π) :=
  match bk.sscNew c.configuration_path with
  | Except.error e => Except.error (AnyError.backend e)
  | Except.ok proxy =>
      match c.configuration_path.to_str with
      | none =>
          Except.error (AnyError.meta
            (AnisetteMetaError.InvalidArgument "configuration.configuration_path"))
      | some s =>
          match bk.set_provisioning_path proxy s with
          | Except.error e => Except.error (AnyError.backend e)
          | Except.ok configured =>
              match bk.adiProxyAnisetteProviderNew configured
                  c.configuration_path.to_path_buf with
              | Except.error e => Except.error (AnyError.backend e)
              | Except.ok _ =>
                  Except.ok (AnisetteHeadersProviderRes.mkLocal
                    (Provider.adiProxyAnisette configured
                      c.configuration_path.to_path_buf))

/-- Build with no macOS target and no `remote-anisette` feature. -/
def buildNone : BuildConfig :=
  { target_os_macos := false, feature_remote_anisette := false }

/-- Build with no macOS target and the `remote-anisette` feature enabled
(the default build). -/
def buildRemote : BuildConfig :=
  { target_os_macos := false, feature_remote_anisette := true }

/-- macOS build without the `remote-anisette` feature. -/
def buildMacNoRemote : BuildConfig :=
  { target_os_macos := true, feature_remote_anisette := false }

/-- Backend oracle in which every constructor succeeds. -/
def okBackends : Backends Nat :=
  { aosKitNew := Except.ok ()
    sscNew := fun _ => Except.ok 0
    set_provisioning_path := fun p _ => Except.ok p
    adiProxyAnisetteProviderNew := fun _ _ => Except.ok () }

/-- Backend oracle in which every constructor fails. -/
def failBackends : Backends Nat :=
  { aosKitNew := Except.error "aos"
    sscNew := fun _ => Except.error "ssc"
    set_provisioning_path := fun _ _ => Except.error "set"
    adiProxyAnisetteProviderNew := fun _ _ => Except.error "adi" }

/-- A configuration whose `configuration_path` is not valid Unicode, so
`to_str` returns `None`. -/
def badPathConf : AnisetteConfiguration :=
  { anisette_url := DEFAULT_ANISETTE_URL
    configuration_path := PathBuf.nonUnicode [255] }

/-- The configuration built in the crate's own test:
`AnisetteConfiguration::new().set_configuration_path("anisette_test")`. -/
def testConf : AnisetteConfiguration :=
  AnisetteConfiguration.new.set_configuration_path (PathBuf.unicode "anisette_test")

theorem ssc_eq_construction_spec {π : Type} (bk : Backends π)
    (c : AnisetteConfiguration) :
    get_ssc_anisette_headers_provider bk c = ssc_construction_spec bk c := by
  unfold get_ssc_anisette_headers_provider ssc_construction_spec
  cases hn : bk.sscNew c.configuration_path with
  | error e => simp [hn, Except.mapError, bind, Except.bind]
  | ok p =>
    cases hs : c.configuration_path.to_str with
    | none => simp [hn, hs, Except.mapError, bind, Except.bind]
    | some s =>
      cases hp : bk.set_provisioning_path p s with
      | error e => simp [hn, hs, hp, Except.mapError, bind, Except.bind]
      | ok p2 =>
        cases ha : bk.adiProxyAnisetteProviderNew p2 c.configuration_path.to_path_buf with
        | error e => simp [hn, hs, hp, ha, Except.mapError, bind, Except.bind]
        | ok u => simp [hn, hs, hp, ha, Except.mapError, bind, Except.bind]

theorem ssc_ok_provider_type {π : Type} (bk : Backends π)
    (c : AnisetteConfiguration) (r : AnisetteHeadersProviderRes π)
    (h : get_ssc_anisette_headers_provider bk c = Except.ok r) :
    r.provider_type = AnisetteHeadersProviderType.Local := by
  rw [ssc_eq_construction_spec] at h
  unfold ssc_construction_spec at h
  repeat' split at h
  all_goals first
    | exact Except.noConfusion h
    | (injection h with h2; subst h2; rfl)

theorem ssc_error_ne_unsupported {π : Type} (bk : Backends π)
    (c : AnisetteConfiguration) (e : AnyError)
    (h : get_ssc_anisette_headers_provider bk c = Except.error e) :
    e ≠ AnyError.meta AnisetteMetaError.UnsupportedDevice := by
  rw [ssc_eq_construction_spec] at h
  unfold ssc_construction_spec at h
  repeat' split at h
  all_goals first
    | exact Except.noConfusion h
    | (injection h with h2; subst h2; simp)

theorem traced_fst {π : Type} (build : BuildConfig) (bk : Backends π)
    (c : AnisetteConfiguration) :
    (get_anisette_headers_provider_traced build bk c).fst =
      get_anisette_headers_provider build bk c := by
  unfold get_anisette_headers_provider_traced get_anisette_headers_provider
    resolve_after_native
  cases hm : build.target_os_macos with
  | false =>
    cases hssc : get_ssc_anisette_headers_provider bk c.clone with
    | ok r => simp [hssc]
    | error e => cases hf : build.feature_remote_anisette <;> simp [hssc, hf]
  | true =>
    cases ha : bk.aosKitNew with
    | ok u => simp [ha]
    | error s =>
      cases hssc : get_ssc_anisette_headers_provider bk c.clone with
      | ok r => simp [ha, hssc]
      | error e => cases hf : build.feature_remote_anisette <;> simp [ha, hssc, hf]

theorem resolve_after_native_ssc_ok {π : Type} (build : BuildConfig)
    (bk : Backends π) (c : AnisetteConfiguration) (r : AnisetteHeadersProviderRes π)
    (h : get_ssc_anisette_headers_provider bk c = Except.ok r) :
    resolve_after_native build bk c = Except.ok r := by
  unfold resolve_after_native
  simp only [AnisetteConfiguration.clone]
  rw [h]

theorem resolve_after_native_ssc_error {π : Type} (build : BuildConfig)
    (bk : Backends π) (c : AnisetteConfiguration) (e : AnyError)
    (h : get_ssc_anisette_headers_provider bk c = Except.error e) :
    resolve_after_native build bk c =
      if build.feature_remote_anisette then
        Except.ok (AnisetteHeadersProviderRes.mkRemote
          (Provider.remote c.anisette_url))
      else Except.error (AnyError.meta AnisetteMetaError.UnsupportedDevice) := by
  unfold resolve_after_native
  simp only [AnisetteConfiguration.clone]
  rw [h]

theorem get_anisette_native_unavailable {π : Type} (build : BuildConfig)
    (bk : Backends π) (c : AnisetteConfiguration)
    (hnative : build.target_os_macos = true → ∃ s, bk.aosKitNew = Except.error s) :
    get_anisette_headers_provider build bk c = resolve_after_native build bk c := by
  unfold get_anisette_headers_provider
  cases hm : build.target_os_macos with
  | false => simp
  | true =>
    obtain ⟨s, hs⟩ := hnative hm
    simp [hs]

theorem get_anisette_aos_ok {π : Type} (build : BuildConfig)
    (bk : Backends π) (c : AnisetteConfiguration) (u : Unit)
    (hm : build.target_os_macos = true) (ha : bk.aosKitNew = Except.ok u) :
    get_anisette_headers_provider build bk c =
      Except.ok (AnisetteHeadersProviderRes.mkLocal Provider.aosKit) := by
  unfold get_anisette_headers_provider
  simp [hm, ha]

theorem traced_snd_all_failed {π : Type} (build : BuildConfig) (bk : Backends π)
    (c : AnisetteConfiguration) (e : AnyError)
    (hnative : build.target_os_macos = true → ∃ s, bk.aosKitNew = Except.error s)
    (hssc : get_ssc_anisette_headers_provider bk c = Except.error e)
    (hf : build.feature_remote_anisette = false) :
    (get_anisette_headers_provider_traced build bk c).snd =
      if build.target_os_macos then [BackendKind.native, BackendKind.localAdi]
      else [BackendKind.localAdi] := by
  unfold get_anisette_headers_provider_traced
  cases hm : build.target_os_macos with
  | false => simp [AnisetteConfiguration.clone, hssc, hf]
  | true =>
    obtain ⟨s, hs⟩ := hnative hm
    simp [AnisetteConfiguration.clone, hs, hssc, hf]

theorem traced_snd_sublist {π : Type} (build : BuildConfig) (bk : Backends π)
    (c : AnisetteConfiguration) :
    List.Sublist (get_anisette_headers_provider_traced build bk c).snd
      [BackendKind.native, BackendKind.localAdi, BackendKind.remoteNet] := by
  unfold get_anisette_headers_provider_traced
  cases hm : build.target_os_macos with
  | false =>
    cases hssc : get_ssc_anisette_headers_provider bk c.clone with
    | ok r =>
      simp only [hssc, Bool.false_eq_true, if_false]
      exact ((List.nil_sublist _).cons _).cons₂ _ |>.cons _
    | error e =>
      cases hf : build.feature_remote_anisette with
      | true =>
        simp only [hssc, hf, Bool.false_eq_true, if_false, if_true]
        exact (((List.nil_sublist _).cons₂ _).cons₂ _).cons _
      | false =>
        simp only [hssc, hf, Bool.false_eq_true, if_false]
        exact ((List.nil_sublist _).cons _).cons₂ _ |>.cons _
  | true =>
    cases ha : bk.aosKitNew with
    | ok u =>
      simp only [ha, if_true]
      exact (((List.nil_sublist _).cons _).cons _).cons₂ _
    | error s =>
      cases hssc : get_ssc_anisette_headers_provider bk c.clone with
      | ok r =>
        simp only [ha, hssc, if_true]
        exact (((List.nil_sublist _).cons _).cons₂ _).cons₂ _
      | error e =>
        cases hf : build.feature_remote_anisette with
        | true =>
          simp only [ha, hssc, hf, if_true]
          exact List.Sublist.refl _
        | false =>
          simp only [ha, hssc, hf, Bool.false_eq_true, if_false, if_true]
          exact (((List.nil_sublist _).cons _).cons₂ _).cons₂ _

/-- Claim C1, counterexample: with a non-Unicode `configuration_path`, a
non-macOS build and no `remote-anisette` feature (and a proxy constructor
that succeeds, so the path-encoding check is reached),
`get_anisette_headers_provider` returns `UnsupportedDevice`, not
`InvalidArgument("configuration.configuration_path")` as the claim
states: the `if let Ok(...)` in the resolver discards the local backend's
error value. -/
theorem claim_C1_counterexample :
    badPathConf.configuration_path.to_str = none ∧
    buildNone.target_os_macos = false ∧
    buildNone.feature_remote_anisette = false ∧
    get_anisette_headers_provider buildNone okBackends badPathConf =
      Except.error (AnyError.meta AnisetteMetaError.UnsupportedDevice) ∧
    get_anisette_headers_provider buildNone okBackends badPathConf ≠
      Except.error (AnyError.meta
        (AnisetteMetaError.InvalidArgument "configuration.configuration_path")) := by
  refine ⟨rfl, rfl, rfl, rfl, ?_⟩
  intro hcontra
  rw [show get_anisette_headers_provider buildNone okBackends badPathConf =
      Except.error (AnyError.meta AnisetteMetaError.UnsupportedDevice) from rfl]
    at hcontra
  simp at hcontra

/-- Claim C1 (amended): when `configuration_path` cannot be converted to a
string and the proxy constructor succeeds, it is
`get_ssc_anisette_headers_provider` that fails with
`InvalidArgument("configuration.configuration_path")`; on a non-macOS
build without the remote backend, `get_anisette_headers_provider`
swallows that error and returns `UnsupportedDevice`. -/
theorem claim_C1_amended_invalid_argument_swallowed {π : Type}
    (build : BuildConfig) (bk : Backends π) (c : AnisetteConfiguration)
    (hnew : ∃ p, bk.sscNew c.configuration_path = Except.ok p)
    (hstr : c.configuration_path.to_str = none)
    (hm : build.target_os_macos = false)
    (hf : build.feature_remote_anisette = false) :
    get_ssc_anisette_headers_provider bk c =
      Except.error (AnyError.meta
        (AnisetteMetaError.InvalidArgument "configuration.configuration_path")) ∧
    get_anisette_headers_provider build bk c =
      Except.error (AnyError.meta AnisetteMetaError.UnsupportedDevice) := by
  obtain ⟨p, hp⟩ := hnew
  have hssc : get_ssc_anisette_headers_provider bk c =
      Except.error (AnyError.meta
        (AnisetteMetaError.InvalidArgument "configuration.configuration_path")) := by
    rw [ssc_eq_construction_spec]
    unfold ssc_construction_spec
    rw [hp, hstr]
  refine ⟨hssc, ?_⟩
  rw [get_anisette_native_unavailable build bk c
      (fun hmm => absurd hmm (by simp [hm])),
    resolve_after_native_ssc_error build bk c _ hssc, hf]
  simp

theorem claim_C1_amended_witness :
    get_ssc_anisette_headers_provider okBackends badPathConf =
      Except.error (AnyError.meta
        (AnisetteMetaError.InvalidArgument "configuration.configuration_path")) ∧
    get_anisette_headers_provider buildNone okBackends badPathConf =
      Except.error (AnyError.meta AnisetteMetaError.UnsupportedDevice) :=
  claim_C1_amended_invalid_argument_swallowed buildNone okBackends badPathConf
    ⟨0, rfl⟩ rfl rfl rfl

/-- Claim C2: whatever error the local provisioned-identity backend's
construction fails with, `get_anisette_headers_provider` never returns
that error value: it either succeeds with another backend or returns its
own `UnsupportedDevice`. -/
theorem claim_C2_local_backend_errors_not_propagated {π : Type}
    (build : BuildConfig) (bk : Backends π) (c : AnisetteConfiguration)
    (e : AnyError)
    (h : get_ssc_anisette_headers_provider bk c = Except.error e) :
    get_anisette_headers_provider build bk c ≠ Except.error e ∧
    ((get_anisette_headers_provider build bk c).isOk = true ∨
      get_anisette_headers_provider build bk c =
        Except.error (AnyError.meta AnisetteMetaError.UnsupportedDevice)) := by
  have hne := ssc_error_ne_unsupported bk c e h
  cases hm : build.target_os_macos with
  | true =>
    cases ha : bk.aosKitNew with
    | ok u =>
      rw [get_anisette_aos_ok build bk c u hm ha]
      exact ⟨by simp, Or.inl rfl⟩
    | error s =>
      rw [get_anisette_native_unavailable build bk c (fun _ => ⟨s, ha⟩),
        resolve_after_native_ssc_error build bk c e h]
      cases hf : build.feature_remote_anisette with
      | true => exact ⟨by simp, Or.inl rfl⟩
      | false =>
        refine ⟨?_, Or.inr (by simp)⟩
        intro hcontra
        simp only [Bool.false_eq_true, if_false] at hcontra
        exact hne ((Except.error.inj hcontra).symm)
  | false =>
    rw [get_anisette_native_unavailable build bk c
        (fun hmm => absurd hmm (by simp [hm])),
      resolve_after_native_ssc_error build bk c e h]
    cases hf : build.feature_remote_anisette with
    | true => exact ⟨by simp, Or.inl rfl⟩
    | false =>
      refine ⟨?_, Or.inr (by simp)⟩
      intro hcontra
      simp only [Bool.false_eq_true, if_false] at hcontra
      exact hne ((Except.error.inj hcontra).symm)

theorem claim_C2_witness :
    get_anisette_headers_provider buildNone okBackends badPathConf ≠
      Except.error (AnyError.meta
        (AnisetteMetaError.InvalidArgument "configuration.configuration_path")) ∧
    ((get_anisette_headers_provider buildNone okBackends badPathConf).isOk = true ∨
      get_anisette_headers_provider buildNone okBackends badPathConf =
        Except.error (AnyError.meta AnisetteMetaError.UnsupportedDevice)) :=
  claim_C2_local_backend_errors_not_propagated buildNone okBackends badPathConf
    (AnyError.meta
      (AnisetteMetaError.InvalidArgument "configuration.configuration_path")) rfl

/-- Claim C3: when the native backend is unavailable (non-macOS build, or
its constructor fails), the local backend's construction fails, and the
`remote-anisette` feature is off, `get_anisette_headers_provider` returns
`UnsupportedDevice`, and the trace shows that every eligible backend
(native when compiled in, then local) was attempted before the error. -/
theorem claim_C3_unsupported_device_after_all_backends {π : Type}
    (build : BuildConfig) (bk : Backends π) (c : AnisetteConfiguration)
    (hnative : build.target_os_macos = true → ∃ s, bk.aosKitNew = Except.error s)
    (hlocal : ∃ e, get_ssc_anisette_headers_provider bk c = Except.error e)
    (hf : build.feature_remote_anisette = false) :
    get_anisette_headers_provider build bk c =
      Except.error (AnyError.meta AnisetteMetaError.UnsupportedDevice) ∧
    (get_anisette_headers_provider_traced build bk c).snd =
      (if build.target_os_macos then [BackendKind.native, BackendKind.localAdi]
       else [BackendKind.localAdi]) := by
  obtain ⟨e, he⟩ := hlocal
  refine ⟨?_, traced_snd_all_failed build bk c e hnative he hf⟩
  rw [get_anisette_native_unavailable build bk c hnative,
    resolve_after_native_ssc_error build bk c e he, hf]
  simp

theorem claim_C3_witness :
    get_anisette_headers_provider buildMacNoRemote failBackends testConf =
      Except.error (AnyError.meta AnisetteMetaError.UnsupportedDevice) ∧
    (get_anisette_headers_provider_traced buildMacNoRemote failBackends testConf).snd =
      (if buildMacNoRemote.target_os_macos then
        [BackendKind.native, BackendKind.localAdi]
       else [BackendKind.localAdi]) :=
  claim_C3_unsupported_device_after_all_backends buildMacNoRemote failBackends
    testConf (fun _ => ⟨"aos", rfl⟩) ⟨AnyError.backend "ssc", rfl⟩ rfl

/-- Claim C4: with the `remote-anisette` feature compiled in, when the
native backend is unavailable and the local backend's construction
fails, `get_anisette_headers_provider` succeeds with a `Remote`-tagged
handle whose backend is built from the configuration's `anisette_url`,
with no assumption on `configuration_path`. -/
theorem claim_C4_remote_fallback {π : Type} (build : BuildConfig)
    (bk : Backends π) (c : AnisetteConfiguration)
    (hremote : build.feature_remote_anisette = true)
    (hnative : build.target_os_macos = true → ∃ s, bk.aosKitNew = Except.error s)
    (hlocal : ∃ e, get_ssc_anisette_headers_provider bk c = Except.error e) :
    get_anisette_headers_provider build bk c =
      Except.ok { provider := Provider.remote c.anisette_url,
                  provider_type := AnisetteHeadersProviderType.Remote } := by
  obtain ⟨e, he⟩ := hlocal
  rw [get_anisette_native_unavailable build bk c hnative,
    resolve_after_native_ssc_error build bk c e he, hremote]
  simp [AnisetteHeadersProviderRes.mkRemote]

theorem claim_C4_witness :
    get_anisette_headers_provider buildRemote failBackends badPathConf =
      Except.ok { provider := Provider.remote badPathConf.anisette_url,
                  provider_type := AnisetteHeadersProviderType.Remote } :=
  claim_C4_remote_fallback buildRemote failBackends badPathConf rfl
    (fun hmm => absurd hmm (by decide)) ⟨AnyError.backend "ssc", rfl⟩

/-- Claim C5: backends are tried native, then local, then remote: whenever
the native backend is unavailable and the local backend's construction
succeeds, `get_anisette_headers_provider` returns exactly that
`Local`-tagged result, never a `Remote`-tagged one. -/
theorem claim_C5_local_wins_over_remote {π : Type} (build : BuildConfig)
    (bk : Backends π) (c : AnisetteConfiguration)
    (r : AnisetteHeadersProviderRes π)
    (hnative : build.target_os_macos = true → ∃ s, bk.aosKitNew = Except.error s)
    (hlocal : get_ssc_anisette_headers_provider bk c = Except.ok r) :
    get_anisette_headers_provider build bk c = Except.ok r ∧
    r.provider_type = AnisetteHeadersProviderType.Local ∧
    r.provider_type ≠ AnisetteHeadersProviderType.Remote := by
  have htag := ssc_ok_provider_type bk c r hlocal
  refine ⟨?_, htag, ?_⟩
  · rw [get_anisette_native_unavailable build bk c hnative,
      resolve_after_native_ssc_ok build bk c r hlocal]
  · rw [htag]
    decide

theorem claim_C5_witness :
    get_anisette_headers_provider buildRemote okBackends testConf =
      Except.ok (AnisetteHeadersProviderRes.mkLocal
        (Provider.adiProxyAnisette 0 (PathBuf.unicode "anisette_test"))) ∧
    (AnisetteHeadersProviderRes.mkLocal
      (Provider.adiProxyAnisette (0 : Nat)
        (PathBuf.unicode "anisette_test"))).provider_type =
      AnisetteHeadersProviderType.Local ∧
    (AnisetteHeadersProviderRes.mkLocal
      (Provider.adiProxyAnisette (0 : Nat)
        (PathBuf.unicode "anisette_test"))).provider_type ≠
      AnisetteHeadersProviderType.Remote :=
  claim_C5_local_wins_over_remote buildRemote okBackends testConf _
    (fun hmm => absurd hmm (by decide)) rfl

/-- Claim C6: `get_ssc_anisette_headers_provider` performs exactly the
spec's construction steps in order — proxy instantiation with the
configuration's path, provisioning-path configuration with
`InvalidArgument("configuration.configuration_path")` on path-encoding
failure, then wrapping in the ADI provider adapter — and every
successful result carries the `Local` tag. -/
theorem claim_C6_ssc_construction_steps {π : Type} (bk : Backends π)
    (c : AnisetteConfiguration) :
    get_ssc_anisette_headers_provider bk c = ssc_construction_spec bk c ∧
    Except.map (fun r => r.provider_type)
        (get_ssc_anisette_headers_provider bk c) =
      Except.map (fun _ => AnisetteHeadersProviderType.Local)
        (get_ssc_anisette_headers_provider bk c) := by
  refine ⟨ssc_eq_construction_spec bk c, ?_⟩
  cases hssc : get_ssc_anisette_headers_provider bk c with
  | error e => rfl
  | ok r =>
    have htag := ssc_ok_provider_type bk c r hssc
    simp [Except.map, htag]

theorem claim_C6_witness :
    get_ssc_anisette_headers_provider okBackends testConf =
      ssc_construction_spec okBackends testConf ∧
    Except.map (fun r => r.provider_type)
        (get_ssc_anisette_headers_provider okBackends testConf) =
      Except.map (fun _ => AnisetteHeadersProviderType.Local)
        (get_ssc_anisette_headers_provider okBackends testConf) :=
  claim_C6_ssc_construction_steps okBackends testConf

/-- Claim C7: the builder-style mutators update exactly their own field
and leave the other unchanged, and cloning (as the resolver does before
handing the configuration to the local backend) preserves the value;
the embedding is value-semantic, so the resolver cannot mutate the
caller's configuration. -/
theorem claim_C7_builder_frame (c : AnisetteConfiguration) (u : String)
    (p : PathBuf) :
    (c.set_anisette_url u).anisette_url = u ∧
    (c.set_anisette_url u).configuration_path = c.configuration_path ∧
    (c.set_configuration_path p).configuration_path = p ∧
    (c.set_configuration_path p).anisette_url = c.anisette_url ∧
    c.clone = c :=
  ⟨rfl, rfl, rfl, rfl, rfl⟩

theorem claim_C7_witness :
    (testConf.set_anisette_url "https://example.invalid/").anisette_url =
      "https://example.invalid/" ∧
    (testConf.set_anisette_url "https://example.invalid/").configuration_path =
      testConf.configuration_path ∧
    (testConf.set_configuration_path PathBuf.new).configuration_path =
      PathBuf.new ∧
    (testConf.set_configuration_path PathBuf.new).anisette_url =
      testConf.anisette_url ∧
    testConf.clone = testConf :=
  claim_C7_builder_frame testConf "https://example.invalid/" PathBuf.new

/-- Claim C8: for a fixed build configuration and fixed backend behaviour,
equal configurations produce the same attempted backend sequence and the
same outcome, and the attempted sequence always follows the priority
order native, local, remote. -/
theorem claim_C8_deterministic_resolution {π : Type} (build : BuildConfig)
    (bk : Backends π) (c1 c2 : AnisetteConfiguration) (h : c1 = c2) :
    get_anisette_headers_provider_traced build bk c1 =
      get_anisette_headers_provider_traced build bk c2 ∧
    get_anisette_headers_provider build bk c1 =
      get_anisette_headers_provider build bk c2 ∧
    List.Sublist (get_anisette_headers_provider_traced build bk c1).snd
      [BackendKind.native, BackendKind.localAdi, BackendKind.remoteNet] :=
  ⟨h ▸ rfl, h ▸ rfl, traced_snd_sublist build bk c1⟩

theorem claim_C8_witness :
    get_anisette_headers_provider_traced buildRemote okBackends testConf =
      get_anisette_headers_provider_traced buildRemote okBackends testConf ∧
    get_anisette_headers_provider buildRemote okBackends testConf =
      get_anisette_headers_provider buildRemote okBackends testConf ∧
    List.Sublist (get_anisette_headers_provider_traced buildRemote okBackends
        testConf).snd
      [BackendKind.native, BackendKind.localAdi, BackendKind.remoteNet] :=
  claim_C8_deterministic_resolution buildRemote okBackends testConf testConf rfl

/-- Claim C9: `AnisetteConfiguration::new()` yields the default anisette
URL `"https://ani.wesbryie.com/"` and the empty path, and `default()`
returns the same value as `new()`. -/
theorem claim_C9_default_configuration :
    AnisetteConfiguration.new.anisette_url = DEFAULT_ANISETTE_URL ∧
    DEFAULT_ANISETTE_URL = "https://ani.wesbryie.com/" ∧
    AnisetteConfiguration.new.configuration_path = PathBuf.new ∧
    PathBuf.new = PathBuf.unicode "" ∧
    AnisetteConfiguration.default = AnisetteConfiguration.new :=
  ⟨rfl, rfl, rfl, rfl, rfl⟩

/-- Claim C10: with the `remote-anisette` feature compiled in,
`get_anisette_headers_provider` succeeds for every configuration and
every backend behaviour: no control path reaches an error return. -/
theorem claim_C10_remote_feature_never_errors {π : Type}
    (build : BuildConfig) (bk : Backends π) (c : AnisetteConfiguration)
    (hremote : build.feature_remote_anisette = true) :
    (get_anisette_headers_provider build bk c).isOk = true := by
  cases hm : build.target_os_macos with
  | true =>
    cases ha : bk.aosKitNew with
    | ok u => rw [get_anisette_aos_ok build bk c u hm ha]; rfl
    | error s =>
      cases hssc : get_ssc_anisette_headers_provider bk c with
      | ok r =>
        rw [get_anisette_native_unavailable build bk c (fun _ => ⟨s, ha⟩),
          resolve_after_native_ssc_ok build bk c r hssc]
        rfl
      | error e =>
        rw [get_anisette_native_unavailable build bk c (fun _ => ⟨s, ha⟩),
          resolve_after_native_ssc_error build bk c e hssc, hremote]
        rfl
  | false =>
    cases hssc : get_ssc_anisette_headers_provider bk c with
    | ok r =>
      rw [get_anisette_native_unavailable build bk c
          (fun hmm => absurd hmm (by simp [hm])),
        resolve_after_native_ssc_ok build bk c r hssc]
      rfl
    | error e =>
      rw [get_anisette_native_unavailable build bk c
          (fun hmm => absurd hmm (by simp [hm])),
        resolve_after_native_ssc_error build bk c e hssc, hremote]
      rfl

theorem claim_C10_witness :
    (get_anisette_headers_provider buildRemote failBackends badPathConf).isOk =
      true :=
  claim_C10_remote_feature_never_errors buildRemote failBackends badPathConf rfl

end Omnisette
